import Mathlib

/-!
Shallow embedding of `pydroid-ipcam.py`, the single-file client adapter for an
Android IP Webcam device, together with theorems settling the specification
claims about it.  Python values, exceptions and the request pipeline are
modelled explicitly; machine-external collaborators (the HTTP session, the
event loop, the timer) are represented by an outcome parameter supplied to
each fetch.
-/

namespace PyDroidIpCam

/-- Python values as produced by the JSON decoder and manipulated by the
settings view: strings, numbers (Python floats, modelled as rationals —
inf/nan are outside the model), booleans, None, dicts (as ordered
association lists) and lists. -/
inductive PyVal where
  | str (s : String)
  | num (q : ℚ)
  | bool (b : Bool)
  | null
  | obj (fields : List (String × PyVal))
  | arr (elems : List PyVal)

/-- Exceptions that can arise in the embedded fragment:  NameError (an
unbound name), asyncio.TimeoutError, aiohttp.errors.ClientError,
aiohttp.errors.ClientDisconnectedError, TypeError, ValueError,
AttributeError and xml.etree.ElementTree.ParseError. -/
inductive PyExc where
  | nameError
  | timeoutError
  | clientError
  | clientDisconnectedError
  | typeError
  | valueError
  | attributeError
  | parseError
deriving Repr, DecidableEq

/-- Result of running a piece of Python code: either a value is returned or
an exception propagates to the caller. -/
inductive PyResult (α : Type) where
  | returned (v : α)
  | raised (e : PyExc)

/-- Module constant `CONTENT_XML` (line 12). -/
def CONTENT_XML : String := "xml"

/-- Module constant `CONTENT_JSON` (line 13). -/
def CONTENT_JSON : String := "json"

/-- Module constant `ALLOWED_ORIENTATIONS` (lines 15-17). -/
def ALLOWED_ORIENTATIONS : List String :=
  ["landscape", "upsidedown", "portrait", "upsidedown_portrait"]

/-- Minimal model of an `xml.etree.ElementTree` element: a tag and its
attribute dictionary (attributes matter because `Element.keys()` and
`Element.get(...)` read them). -/
structure XmlElement where
  tag : String
  attrib : List (String × String)

/-- Model of parsing a string with `ET.fromstring`, covering only
self-closing single-element documents of the shape `<tag/>` with an
alphabetic tag and no attributes; every other string is malformed
(`ParseError`).  No claim below depends on which strings parse. -/
def xmlParseString (s : String) : Except PyExc XmlElement :=
  match s.toList with
  | '<' :: rest =>
      let tag := rest.takeWhile Char.isAlpha
      if rest = tag ++ ['/', '>'] ∧ tag ≠ [] then
        .ok { tag := String.mk tag, attrib := [] }
      else .error .parseError
  | _ => .error .parseError

/-- Model of `ET.fromstring(data)` (line 81): a non-string argument —
`None`, or any decoded JSON value other than a string — raises `TypeError`,
as in CPython; a string goes to the parser model above. -/
def ET_fromstring (data : Option PyVal) : Except PyExc XmlElement :=
  match data with
  | some (.str s) => xmlParseString s
  | _ => .error .typeError

/-- A successfully decoded response body as stored in the snapshot fields:
either an ElementTree element or a decoded JSON value. -/
inductive Payload where
  | xmlEl (el : XmlElement)
  | jsonData (v : PyVal)

/-- Model of one obtained HTTP response: its status code and the outcomes of
reading its body via `response.text()` or `response.json()` (either read can
itself raise — a timeout or transport error during the read, or a
`ValueError` from `json.loads` on a malformed JSON body). -/
structure HttpResponse where
  status : Nat
  textResult : Except PyExc String
  jsonResult : Except PyExc PyVal

/-- Outcome of evaluating the guarded GET (line 62) when the name lookup of
its arguments succeeds: either a response object is obtained, or the
awaited call raises (timeout elapsed, connection error, disconnect, or any
other exception). -/
inductive GetOutcome where
  | ok (resp : HttpResponse)
  | raised (e : PyExc)

/-- Exception classes caught by the `except` clause at lines 70-71:
`asyncio.TimeoutError`, `aiohttp.errors.ClientError`,
`aiohttp.errors.ClientDisconnectedError`. -/
def isCaughtTransport (e : PyExc) : Bool :=
  e = PyExc.timeoutError ∨ e = PyExc.clientError ∨ e = PyExc.clientDisconnectedError

/-- Exception classes caught by the `except` clause at line 84:
`ET.ParseError`, `TypeError`, `AttributeError`. -/
def isCaughtParse (e : PyExc) : Bool :=
  e = PyExc.parseError ∨ e = PyExc.typeError ∨ e = PyExc.attributeError

/-- Lines 64-86 of `_request`, given an obtained response.  First the body
of the `with` block after the GET: on status 200, `data` is read as text
when the hint is `CONTENT_XML` and as parsed JSON when it is
`CONTENT_JSON`; any other status (or hint) leaves `data = None`.  An
exception raised while reading the body hits the `except`/`finally` pair:
the three transport classes are logged and turned into a bare `return`
(`None`), anything else propagates.  Then the second `try` (lines 79-86):
the test at line 80 compares the module constant `CONTENT_XML == 'xml'` —
a tautology, not a test of `content` — so every call reaches
`ET.fromstring(data)`; `ParseError`, `TypeError` and `AttributeError` there
are logged and turned into `None`, and the `else` branch returning the
JSON data verbatim is dead code. -/
def afterResponse (content : String) (resp : HttpResponse) :
    PyResult (Option Payload) :=
  let dataRes : Except PyExc (Option PyVal) :=
    if resp.status = 200 then
      if content = CONTENT_XML then
        resp.textResult.map (fun s => some (.str s))
      else if content = CONTENT_JSON then
        resp.jsonResult.map some
      else .ok Option.none
    else .ok Option.none
  match dataRes with
  | .error e =>
      if isCaughtTransport e then .returned Option.none else .raised e
  | .ok data =>
      if CONTENT_XML = "xml" then
        match ET_fromstring data with
        | .ok el => .returned (some (.xmlEl el))
        | .error e =>
            if isCaughtParse e then .returned Option.none else .raised e
      else
        .returned (data.map .jsonData)

/-- Result of one `_request` call: the Python-level outcome, plus how many
times `response.release()` ran. -/
structure FetchOutcome where
  result : PyResult (Option Payload)
  released : Nat

/-- Lines 58-86 of `_request`, with the evaluation of the guarded GET
expression supplied as a parameter.  `response` starts as `None`; the
`finally` block at lines 75-77 runs on every exit from the first `try` and
releases the response exactly when one was bound, so an exception raised by
the GET itself (no response bound) releases nothing, while every path with
an obtained response — success, non-200, body-read failure, caught or
uncaught exception — releases it once before the function returns or the
exception propagates. -/
def requestPipeline (content : String) (g : GetOutcome) : FetchOutcome :=
  match g with
  | .raised e =>
      { result := if isCaughtTransport e then .returned Option.none else .raised e
        released := 0 }
  | .ok resp =>
      { result := afterResponse content resp
        released := 1 }

/-- The device-object state: the two snapshot fields and the constructor
fields.  The `loop` and `websession` collaborators are external and carry
no modelled state. -/
structure IPWebcam where
  status_data : Option Payload
  sensor_data : Option Payload
  _host : String
  _port : Nat
  _auth : Option (String × String)
  _timeout : Option Nat

/-- `IPWebcam.__init__` (lines 23-36).  Both snapshot fields start as
`None`; `_auth` is set from the credential pair exactly when both
`username` and `password` are truthy (non-None and non-empty); line 33
assigns `self._timeout = None`, and the `timeout` argument is used nowhere
in the body, so the configured value is dropped. -/
def IPWebcam.init (host : String) (port : Nat) (username password : Option String)
    (timeout : Nat) : IPWebcam :=
  { status_data := Option.none
    sensor_data := Option.none
    _host := host
    _port := port
    _auth :=
      match username, password with
      | some u, some p => if u ≠ "" ∧ p ≠ "" then some (u, p) else Option.none
      | _, _ => Option.none
    _timeout := Option.none }

/-- `base_url` (lines 38-41). -/
def IPWebcam.base_url (st : IPWebcam) : String :=
  "http://" ++ st._host ++ ":" ++ toString st._port

/-- `mjpeg_url` (lines 43-46). -/
def IPWebcam.mjpeg_url (st : IPWebcam) : String :=
  st.base_url ++ "/video"

/-- `image_url` (lines 48-51). -/
def IPWebcam.image_url (st : IPWebcam) : String :=
  st.base_url ++ "/photo.jpg"

/-- The value `_request` passes as the bound of `async_timeout.timeout` at
line 61: `self._timeout`. -/
def IPWebcam.waitBound (st : IPWebcam) : Option Nat := st._timeout

/-- The binding of the bare name `auth` that line 62 passes as the `auth`
argument of `websession.get`.  The module defines no such name — neither a
local, a parameter, a global nor a builtin — so looking it up raises
`NameError`. -/
def authBinding : Option PyVal := Option.none

/-- `IPWebcam._request` (lines 53-86).  Evaluating the arguments of
`self.websession.get(url, auth=auth)` looks up the unbound name `auth`
first, so a `NameError` is raised inside the `try` before the network is
ever reached; `NameError` is not in the caught tuple at lines 70-71, the
`finally` block sees `response` still `None` and releases nothing, and the
`NameError` propagates to the caller.  Had the lookup succeeded, the call
would continue as `requestPipeline`. -/
def IPWebcam._request (st : IPWebcam) (path : String) (content : String)
    (g : GetOutcome) : FetchOutcome :=
  let url := st.base_url ++ path
  match authBinding with
  | Option.none => { result := .raised .nameError, released := 0 }
  | some _ => requestPipeline content g

/-- `IPWebcam.update` (lines 88-95): two sequential assignments, each from
a `_request` call with the JSON hint; an exception raised by a fetch
propagates before the corresponding assignment happens, leaving the
field(s) as they were. -/
def IPWebcam.update (st : IPWebcam) (g1 g2 : GetOutcome) :
    PyResult Unit × IPWebcam :=
  let r1 := st._request "/status.json" CONTENT_JSON g1
  match r1.result with
  | .raised e => (.raised e, st)
  | .returned v1 =>
      let st1 : IPWebcam := { st with status_data := v1 }
      let r2 := st1._request "/sensors.json" CONTENT_JSON g2
      match r2.result with
      | .raised e => (.raised e, st1)
      | .returned v2 => (.returned (), { st1 with sensor_data := v2 })

/-- `enabled_sensors` (lines 97-100): `list(self.sensor_data.keys())`.
When `sensor_data` is `None`, `.keys` on `None` raises `AttributeError`; a
dict yields its keys; an ElementTree element yields its attribute names
(`Element.keys()` lists attributes); any other decoded value has no
`.keys` and raises `AttributeError`. -/
def IPWebcam.enabled_sensors (st : IPWebcam) : Except PyExc (List String) :=
  match st.sensor_data with
  | Option.none => .error .attributeError
  | some (.jsonData (.obj fields)) => .ok (fields.map Prod.fst)
  | some (.xmlEl el) => .ok (el.attrib.map Prod.fst)
  | some _ => .error .attributeError

/-- First-match association lookup, the model of reading one key from a
decoded JSON dict (device dicts have distinct keys). -/
def assocFind (fields : List (String × PyVal)) (key : String) : Option PyVal :=
  match fields with
  | [] => Option.none
  | (k, v) :: rest => if k = key then some v else assocFind rest key

/-- Association lookup over string-valued attribute lists. -/
def assocFindStr (fields : List (String × String)) (key : String) : Option String :=
  match fields with
  | [] => Option.none
  | (k, v) :: rest => if k = key then some v else assocFindStr rest key

/-- Model of `self.status_data.get('curvals', {})` (line 107) on a present
snapshot: a dict looks the key up with an empty-dict default; an
ElementTree element also has a `get` (it reads attributes, with the same
default); any other decoded value has no `.get` and raises
`AttributeError`. -/
def pyGetCurvals (p : Payload) : Except PyExc PyVal :=
  match p with
  | .jsonData (.obj fields) =>
      .ok (match assocFind fields "curvals" with
           | some v => v
           | Option.none => .obj [])
  | .jsonData _ => .error .attributeError
  | .xmlEl el =>
      .ok (match assocFindStr el.attrib "curvals" with
           | some s => .str s
           | Option.none => .obj [])

/-- Model of `.items()` on the looked-up value: dicts iterate their pairs,
everything else has no `.items` and raises `AttributeError`. -/
def pyItems (v : PyVal) : Except PyExc (List (String × PyVal)) :=
  match v with
  | .obj fields => .ok fields
  | _ => .error .attributeError

/-- Decimal-literal parsing for Python `float()` on strings: optional sign,
then digits with an optional fractional part, at least one digit overall.
Exponents, inf/nan, underscores and surrounding whitespace are outside the
model; on those this model answers "malformed" where CPython may not, and
no claim below depends on such inputs. -/
def decDigits (cs : List Char) : Option Nat :=
  match cs with
  | [] => Option.none
  | _ =>
      cs.foldl
        (fun acc c => acc.bind
          (fun n => if c.isDigit then some (10 * n + (c.toNat - 48)) else Option.none))
        (some 0)

/-- Split a character list at its first dot, when one occurs. -/
def splitAtDot : List Char → List Char × Option (List Char)
  | [] => ([], Option.none)
  | c :: rest =>
      if c = '.' then ([], some rest)
      else
        let (a, b) := splitAtDot rest
        (c :: a, b)

/-- Unsigned decimal literal: `digits`, `digits.digits`, `digits.` or
`.digits`. -/
def parseDecimalCore (cs : List Char) : Option ℚ :=
  match splitAtDot cs with
  | (ip, Option.none) => (decDigits ip).map (fun n => (n : ℚ))
  | (ip, some fp) =>
      if ip = [] ∧ fp = [] then Option.none
      else
        match (if ip = [] then some 0 else decDigits ip),
              (if fp = [] then some 0 else decDigits fp) with
        | some a, some b => some ((a : ℚ) + (b : ℚ) / (10 : ℚ) ^ fp.length)
        | _, _ => Option.none

/-- Python `float()` applied to a string, yielding the parsed value or
nothing when the literal is malformed. -/
def pyFloatOfString (s : String) : Option ℚ :=
  match s.toList with
  | '+' :: rest => parseDecimalCore rest
  | '-' :: rest => (parseDecimalCore rest).map Neg.neg
  | cs => parseDecimalCore cs

/-- Python `float(val)` on a decoded value: strings parse as decimal
literals (`ValueError` when malformed), numbers convert to themselves,
booleans convert to 1.0/0.0, and `None`, dicts and lists raise
`TypeError`. -/
def pyFloat (v : PyVal) : Except PyExc ℚ :=
  match v with
  | .str s =>
      match pyFloatOfString s with
      | some q => .ok q
      | Option.none => .error .valueError
  | .num q => .ok q
  | .bool b => .ok (if b then 1 else 0)
  | .null => .error .typeError
  | .obj _ => .error .typeError
  | .arr _ => .error .typeError

/-- One iteration of the loop body of `current_settings` (lines 107-116):
`try: val = float(val) except ValueError: pass`, then
`if val == 'on' or val == 'off': val = (val == 'on')`.  Only `ValueError`
is caught, so `float()` raising `TypeError` (a non-string, non-numeric
value) propagates out of the property; after a successful `float()` the
value is a number and never compares equal to the strings, so the on/off
test only fires on strings that failed to parse. -/
def coerceVal (val : PyVal) : Except PyExc PyVal :=
  match pyFloat val with
  | .ok q => .ok (.num q)
  | .error .valueError =>
      match val with
      | .str s =>
          .ok (if s = "on" then .bool true
               else if s = "off" then .bool false
               else .str s)
      | other => .ok other
  | .error e => .error e

/-- The loop of `current_settings` over the items of the current-values
map, building the `settings` dict in iteration order; the first uncaught
exception aborts the whole property. -/
def coerceAll : List (String × PyVal) → Except PyExc (List (String × PyVal))
  | [] => .ok []
  | (k, v) :: rest =>
      match coerceVal v with
      | .error e => .error e
      | .ok v2 => (coerceAll rest).map (fun tail => (k, v2) :: tail)

/-- `current_settings` (lines 102-117).  When `status_data` is `None`, the
body of the `if` is skipped and the property implicitly returns `None`;
otherwise the nested current-values map is looked up with an empty-dict
default, iterated, and each value coerced by `coerceVal`. -/
def IPWebcam.current_settings (st : IPWebcam) :
    Except PyExc (Option (List (String × PyVal))) :=
  match st.status_data with
  | Option.none => .ok Option.none
  | some p =>
      match pyGetCurvals p with
      | .error e => .error e
      | .ok cv =>
          match pyItems cv with
          | .error e => .error e
          | .ok items =>
              match coerceAll items with
              | .error e => .error e
              | .ok settings => .ok (some settings)

/-- Values the module's own call sites pass to `change_setting`: booleans
(the enable/disable helpers), integers (`set_quality`) and strings
(`set_orientation`). -/
inductive SettingVal where
  | bool (b : Bool)
  | int (n : ℤ)
  | str (s : String)

/-- The coroutine a mutator hands back to its caller, before it is awaited:
the relative path and the content-kind hint it will pass to `_request`. -/
structure PendingRequest where
  path : String
  content : String

/-- What a mutator method returns: a pending request (the coroutine), or
`set_orientation`'s bare `False` sentinel. -/
inductive MethodReturn where
  | pending (r : PendingRequest)
  | boolVal (b : Bool)

/-- The request built by `change_setting` (lines 119-128): a boolean value
becomes the literal `'on'`/`'off'`, every other value is interpolated
as-is by `'{}'.format` — strings verbatim, integers in decimal — into
`/settings/{key}?set={payload}`, fetched with the default XML hint. -/
def change_setting_request (key : String) (val : SettingVal) : PendingRequest :=
  let payload : String :=
    match val with
    | .bool b => if b then "on" else "off"
    | .int n => toString n
    | .str s => s
  { path := "/settings/" ++ key ++ "?set=" ++ payload, content := CONTENT_XML }

/-- `change_setting` as a method call: it assigns no field, so the object
after the call is the object before it, and the caller receives the pending
request. -/
def IPWebcam.change_setting (st : IPWebcam) (key : String) (val : SettingVal) :
    PyResult MethodReturn × IPWebcam :=
  (.returned (.pending (change_setting_request key val)), st)

/-- `torch` (lines 130-136). -/
def IPWebcam.torch (st : IPWebcam) (activate : Bool) :
    PyResult MethodReturn × IPWebcam :=
  let path := if activate then "/enabletorch" else "/disabletorch"
  (.returned (.pending { path := path, content := CONTENT_XML }), st)

/-- `focus` (lines 138-144). -/
def IPWebcam.focus (st : IPWebcam) (activate : Bool) :
    PyResult MethodReturn × IPWebcam :=
  let path := if activate then "/focus" else "/nofocus"
  (.returned (.pending { path := path, content := CONTENT_XML }), st)

/-- `record` (lines 146-154).  With `record` true and a tag present, line
153 evaluates `quote(tag)` — but the module imports no name `quote`, so a
`NameError` is raised there; otherwise the call returns the pending request
with the JSON hint.  No field is assigned on any path. -/
def IPWebcam.record (st : IPWebcam) (rec : Bool) (tag : Option String) :
    PyResult MethodReturn × IPWebcam :=
  match rec, tag with
  | true, some _ => (.raised .nameError, st)
  | _, _ =>
      let path := if rec then "/startvideo?force=1" else "/stopvideo?force=1"
      (.returned (.pending { path := path, content := CONTENT_JSON }), st)

/-- `set_front_facing_camera` (lines 156-161). -/
def IPWebcam.set_front_facing_camera (st : IPWebcam) (activate : Bool) :
    PyResult MethodReturn × IPWebcam :=
  st.change_setting "ffc" (.bool activate)

/-- `set_night_vision` (lines 163-168). -/
def IPWebcam.set_night_vision (st : IPWebcam) (activate : Bool) :
    PyResult MethodReturn × IPWebcam :=
  st.change_setting "night_vision" (.bool activate)

/-- `set_overlay` (lines 170-175). -/
def IPWebcam.set_overlay (st : IPWebcam) (activate : Bool) :
    PyResult MethodReturn × IPWebcam :=
  st.change_setting "overlay" (.bool activate)

/-- `set_gps_active` (lines 177-182). -/
def IPWebcam.set_gps_active (st : IPWebcam) (activate : Bool) :
    PyResult MethodReturn × IPWebcam :=
  st.change_setting "gps_active" (.bool activate)

/-- `set_quality` (lines 184-189). -/
def IPWebcam.set_quality (st : IPWebcam) (quality : ℤ) :
    PyResult MethodReturn × IPWebcam :=
  st.change_setting "quality" (.int quality)

/-- `set_orientation` (lines 191-199): a value outside
`ALLOWED_ORIENTATIONS` is logged and answered with the bare `False`
sentinel, with no request built; an allowed value is forwarded to
`change_setting('orientation', ...)`. -/
def IPWebcam.set_orientation (st : IPWebcam) (o : String) :
    PyResult MethodReturn × IPWebcam :=
  if o ∉ ALLOWED_ORIENTATIONS then
    (.returned (.boolVal false), st)
  else
    st.change_setting "orientation" (.str o)

/-- `set_zoom` (lines 201-206). -/
def IPWebcam.set_zoom (st : IPWebcam) (zoom : ℤ) :
    PyResult MethodReturn × IPWebcam :=
  (.returned (.pending
      { path := "/settings/ptz?zoom=" ++ toString zoom, content := CONTENT_XML }), st)

/-- A device object as built by the constructor: no credentials, no
snapshots yet. -/
def sampleHost : IPWebcam := IPWebcam.init "192.0.2.1" 8080 Option.none Option.none 10

/-- A 200 response whose body is well-formed JSON (a dict), as the status
endpoint serves. -/
def jsonOkResponse : HttpResponse :=
  { status := 200
    textResult := .ok "ignored"
    jsonResult := .ok (.obj [("curvals", .obj [("quality", .str "80")])]) }

/-- A device state whose present status snapshot carries a current-values
map with a null-valued entry. -/
def cexNullState : IPWebcam :=
  { sampleHost with
    status_data := some (.jsonData (.obj [("curvals", .obj [("audio_only", PyVal.null)])])) }

/-- A device state whose present status snapshot carries the documented
example current-values map: quality "80" and night_vision "on". -/
def exampleStatusState : IPWebcam :=
  { sampleHost with
    status_data := some (.jsonData (.obj [("curvals",
      .obj [("quality", .str "80"), ("night_vision", .str "on")])])) }

/-- A device state whose present sensor snapshot lists two sensors. -/
def sensorSnapshotState : IPWebcam :=
  { sampleHost with
    sensor_data := some (.jsonData (.obj [("light", .obj []), ("battery_temp", .obj [])])) }

/-- The per-value coercion rule as the specification states it, on string
inputs: a numeric string becomes a number, `"on"`/`"off"` become the
booleans, every other string is left unchanged.  Stated from the spec's
words, to be compared with the source-derived `coerceVal`. -/
def specStringCoerce (s : String) : PyVal :=
  match pyFloatOfString s with
  | some q => .num q
  | Option.none =>
      if s = "on" then .bool true
      else if s = "off" then .bool false
      else .str s

/-- On string inputs the source's loop body agrees with the spec's
coercion rule. -/
theorem coerceVal_str (s : String) :
    coerceVal (.str s) = .ok (specStringCoerce s) := by
  unfold coerceVal pyFloat specStringCoerce
  cases h : pyFloatOfString s <;> simp [h]

/-- The settings loop over a current-values map whose values are all
strings succeeds and applies the coercion rule pointwise. -/
theorem coerceAll_strings (svs : List (String × String)) :
    coerceAll (svs.map (fun p => (p.1, PyVal.str p.2))) =
      .ok (svs.map (fun p => (p.1, specStringCoerce p.2))) := by
  induction svs with
  | nil => rfl
  | cons hd tl ih => simp [coerceAll, coerceVal_str, ih, Except.map]

/-- C1: the claim fails on the code — a fetch with the JSON content-kind
hint and a 200 response carrying a well-formed JSON body does not return
the parsed value.  The call as written raises `NameError` at the GET (the
unbound name `auth`, line 62); and even in the continuation past the GET,
line 80's tautological `CONTENT_XML == 'xml'` test routes the parsed JSON
value into `ET.fromstring`, whose `TypeError` on a dict is swallowed into
an absent result, so the parsed value is lost on every path. -/
theorem json_fetch_never_returns_parsed_value :
    jsonOkResponse.status = 200 ∧
    jsonOkResponse.jsonResult = .ok (.obj [("curvals", .obj [("quality", .str "80")])]) ∧
    sampleHost._request "/status.json" CONTENT_JSON (.ok jsonOkResponse) =
      { result := .raised .nameError, released := 0 } ∧
    requestPipeline CONTENT_JSON (.ok jsonOkResponse) =
      { result := .returned Option.none, released := 1 } :=
  ⟨rfl, rfl, rfl, rfl⟩

/-- C2: the claim fails on the code as written — every `_request` call, on
every network outcome, raises `NameError` (the unbound name `auth` at line
62), which is not in the caught tuple and propagates to the caller.  The
`except` clause would absorb the three transport classes into an absent
result only in the continuation the name lookup never reaches (second
conjunct). -/
theorem request_always_raises_nameError :
    (∀ (st : IPWebcam) (path content : String) (g : GetOutcome),
        st._request path content g =
          { result := .raised .nameError, released := 0 }) ∧
    (∀ content : String,
        requestPipeline content (.raised .timeoutError) =
          { result := .returned Option.none, released := 0 } ∧
        requestPipeline content (.raised .clientError) =
          { result := .returned Option.none, released := 0 } ∧
        requestPipeline content (.raised .clientDisconnectedError) =
          { result := .returned Option.none, released := 0 }) :=
  ⟨fun _ _ _ _ => rfl, fun _ => ⟨rfl, rfl, rfl⟩⟩

/-- C3: for every value of the `timeout` constructor argument (and of every
other constructor input), the `_timeout` field — the value `_request` hands
to the bounded-wait mechanism at line 61 — is still `None` after
construction; the configured value is never assigned to it. -/
theorem timeout_argument_never_wired (host : String) (port : Nat)
    (username password : Option String) (tmo : Nat) :
    (IPWebcam.init host port username password tmo)._timeout = Option.none ∧
    (IPWebcam.init host port username password tmo).waitBound = Option.none :=
  ⟨rfl, rfl⟩

/-- C4: under every simulated outcome of the guarded GET — success with any
status, body-read failure, caught or uncaught exception during the body,
timeout, transport error — the pipeline releases the response exactly once
when one was obtained and zero times when none was; and the call as
written, which raises before a response is ever bound, releases
nothing. -/
theorem response_released_exactly_once (content : String) (g : GetOutcome) :
    (requestPipeline content g).released =
      (match g with | .ok _ => 1 | .raised _ => 0) ∧
    ∀ (st : IPWebcam) (path : String), (st._request path content g).released = 0 := by
  refine ⟨?_, fun _ _ => rfl⟩
  cases g <;> rfl

/-- C5: `set_orientation` accepts exactly the four allow-listed values,
building the corresponding change-setting request for each, and answers
every other string with the bare `False` sentinel, with no request
built. -/
theorem set_orientation_allowlist :
    ALLOWED_ORIENTATIONS = ["landscape", "upsidedown", "portrait", "upsidedown_portrait"] ∧
    (∀ (st : IPWebcam) (o : String), o ∈ ALLOWED_ORIENTATIONS →
        st.set_orientation o =
          (.returned (.pending (change_setting_request "orientation" (.str o))), st)) ∧
    (∀ (st : IPWebcam) (o : String), o ∉ ALLOWED_ORIENTATIONS →
        st.set_orientation o = (.returned (.boolVal false), st)) := by
  refine ⟨rfl, ?_, ?_⟩
  · intro st o ho
    simp [IPWebcam.set_orientation, IPWebcam.change_setting, ho]
  · intro st o ho
    simp [IPWebcam.set_orientation, ho]

/-- Witness for C5 at the concrete inputs `"portrait"` (allowed) and
`"diagonal"` (rejected). -/
theorem set_orientation_allowlist_witness :
    sampleHost.set_orientation "portrait" =
      (.returned (.pending (change_setting_request "orientation" (.str "portrait"))), sampleHost) ∧
    sampleHost.set_orientation "diagonal" = (.returned (.boolVal false), sampleHost) :=
  ⟨set_orientation_allowlist.2.1 sampleHost "portrait" (by decide),
   set_orientation_allowlist.2.2 sampleHost "diagonal" (by decide)⟩

/-- C6: for every key and every state, `change_setting` with `True` builds
the query `set=on` and with `False` the query `set=off`; a string value is
passed through verbatim and an integer value in decimal, each interpolated
unmodified into `/settings/{key}?set={value}` with the default XML
hint. -/
theorem change_setting_payload_encoding (st : IPWebcam) (key : String) :
    st.change_setting key (.bool true) =
      (.returned (.pending
        { path := "/settings/" ++ key ++ "?set=" ++ "on", content := CONTENT_XML }), st) ∧
    st.change_setting key (.bool false) =
      (.returned (.pending
        { path := "/settings/" ++ key ++ "?set=" ++ "off", content := CONTENT_XML }), st) ∧
    (∀ s : String, st.change_setting key (.str s) =
      (.returned (.pending
        { path := "/settings/" ++ key ++ "?set=" ++ s, content := CONTENT_XML }), st)) ∧
    (∀ n : ℤ, st.change_setting key (.int n) =
      (.returned (.pending
        { path := "/settings/" ++ key ++ "?set=" ++ toString n, content := CONTENT_XML }), st)) :=
  ⟨rfl, rfl, fun _ => rfl, fun _ => rfl⟩

/-- C7 counterexample: on the present status snapshot
`{"curvals": {"audio_only": null}}` the settings view does not leave the
value as a string — `float(None)` raises `TypeError`, line 110 catches
only `ValueError`, and the `TypeError` propagates out of
`current_settings` instead of any settings map being returned. -/
theorem current_settings_raises_on_null_value :
    cexNullState.current_settings = .error .typeError := rfl

/-- C7 (amended): for every present status snapshot that is a dict whose
current-values entry is a dict with string values, `current_settings`
coerces each value by the stated rule — numeric string to number, on/off
to boolean, every other string left unchanged; on the documented example
it yields quality 80.0 and night_vision true.  (A non-string value on
which `float()` raises `TypeError` aborts the property instead, as the
counterexample shows.) -/
theorem current_settings_string_coercion (st : IPWebcam)
    (fields : List (String × PyVal)) (svs : List (String × String))
    (hsd : st.status_data = some (.jsonData (.obj fields)))
    (hcv : assocFind fields "curvals" =
      some (.obj (svs.map (fun p => (p.1, PyVal.str p.2))))) :
    st.current_settings =
      .ok (some (svs.map (fun p => (p.1, specStringCoerce p.2)))) := by
  unfold IPWebcam.current_settings
  rw [hsd]
  simp [pyGetCurvals, hcv, pyItems, coerceAll_strings]

/-- Witness for C7's amended theorem at the documented example snapshot:
quality "80" and night_vision "on" coerce to the number 80 and the boolean
true. -/
theorem current_settings_string_coercion_witness :
    exampleStatusState.current_settings =
      .ok (some [("quality", .num 80), ("night_vision", .bool true)]) := by
  exact current_settings_string_coercion exampleStatusState
    [("curvals", .obj [("quality", .str "80"), ("night_vision", .str "on")])]
    [("quality", "80"), ("night_vision", "on")] rfl rfl

/-- C8: the claim fails on the code — an `update()` whose fetches fail
does not overwrite previously populated snapshots with an absent value.
Every fetch raises `NameError` (the unbound `auth`) before either
assignment at lines 91-94 executes, so `update` propagates the exception
and both prior snapshots survive untouched: stale, not absent. -/
theorem update_failure_keeps_stale_snapshots :
    ∀ g1 g2 : GetOutcome,
      exampleStatusState.update g1 g2 = (.raised .nameError, exampleStatusState) ∧
      ((exampleStatusState.update g1 g2).2).status_data ≠ Option.none :=
  fun _ _ => ⟨rfl, fun h => Option.noConfusion h⟩

/-- C9: on a present sensor snapshot that is a dict, `enabled_sensors`
yields exactly its keys; on an absent snapshot it raises `AttributeError`
(`None` has no `.keys`) rather than answering with a soft absent or empty
result. -/
theorem enabled_sensors_keys_or_fatal :
    (∀ (st : IPWebcam) (fields : List (String × PyVal)),
        st.sensor_data = some (.jsonData (.obj fields)) →
        st.enabled_sensors = .ok (fields.map Prod.fst)) ∧
    (∀ st : IPWebcam, st.sensor_data = Option.none →
        st.enabled_sensors = .error .attributeError) := by
  constructor
  · intro st fields h
    unfold IPWebcam.enabled_sensors
    rw [h]
  · intro st h
    unfold IPWebcam.enabled_sensors
    rw [h]

/-- Witness for C9 at a two-sensor snapshot and at the absent snapshot. -/
theorem enabled_sensors_keys_or_fatal_witness :
    sensorSnapshotState.enabled_sensors = .ok ["light", "battery_temp"] ∧
    sampleHost.enabled_sensors = .error .attributeError :=
  ⟨enabled_sensors_keys_or_fatal.1 sensorSnapshotState
      [("light", .obj []), ("battery_temp", .obj [])] rfl,
   enabled_sensors_keys_or_fatal.2 sampleHost rfl⟩

/-- C10: every mutator — `change_setting`, `torch`, `focus`, `record`,
`set_front_facing_camera`, `set_night_vision`, `set_overlay`,
`set_gps_active`, `set_quality`, `set_orientation`, `set_zoom` — leaves
the object, and so both snapshot fields, exactly as it found it; among the
operations only `update` contains an assignment to a snapshot field. -/
theorem mutators_leave_snapshots_unchanged (st : IPWebcam) :
    (∀ key val, (st.change_setting key val).2 = st) ∧
    (∀ b, (st.torch b).2 = st) ∧
    (∀ b, (st.focus b).2 = st) ∧
    (∀ b tag, (st.record b tag).2 = st) ∧
    (∀ b, (st.set_front_facing_camera b).2 = st) ∧
    (∀ b, (st.set_night_vision b).2 = st) ∧
    (∀ b, (st.set_overlay b).2 = st) ∧
    (∀ b, (st.set_gps_active b).2 = st) ∧
    (∀ q, (st.set_quality q).2 = st) ∧
    (∀ o, (st.set_orientation o).2 = st) ∧
    (∀ z, (st.set_zoom z).2 = st) := by
  refine ⟨fun _ _ => rfl, fun _ => rfl, fun _ => rfl, ?_, fun _ => rfl, fun _ => rfl,
    fun _ => rfl, fun _ => rfl, fun _ => rfl, ?_, fun _ => rfl⟩
  · intro b tag
    cases b <;> cases tag <;> rfl
  · intro o
    unfold IPWebcam.set_orientation
    split <;> rfl

end PyDroidIpCam
